import Mathlib

/-!
Shallow embedding of `aiida_cp2k/parsers/__init__.py` (the CP2K output-parser
assembly layer): `Cp2kBaseParser.parse`, `Cp2kBaseParser._parse_stdout`,
`Cp2kBaseParser._parse_trajectory`, `Cp2kBaseParser._create_output_nodes`
and `Cp2kAdvancedParser._create_output_nodes`.

Python machine model used throughout:
* the flat result dictionary is a record of optional fields — `none` means the
  key is absent, a lookup of an absent key is a `KeyError`;
* Python list indexing (with its negative-index wraparound and `IndexError`)
  is `pyGet` below;
* Python floats are modelled as rationals `ℚ`;
* the retrieved folder is an association list name ↦ optional content, where
  `none` content means the object is present but unreadable (`IOError`);
* the external scanner `parse_cp2k_output` and geometry reader
  `parse_cp2k_trajectory` (from `aiida_cp2k.utils.parser`, outside this file)
  are parameters of the embedded methods.
-/

namespace AiidaCp2k

/-- A Python-level exception escaping the assembly layer. -/
inductive PyErr where
  | keyError
  | indexError
deriving DecidableEq

/-- AiiDA exit codes referenced by `Cp2kBaseParser` (`self.exit_codes.…`),
plus `ExitCode(0)` as `success`. -/
inductive ExitCodeKind where
  | success
  | errorNoRetrievedFolder
  | errorOutputStdoutMissing
  | errorOutputStdoutRead
  | errorGeometryConvergenceNotReached
  | errorUksNeeded
  | errorOutputContainsAbort
deriving DecidableEq

/-- Python list indexing `xs[i]`: a negative index counts from the end once;
a still-out-of-range index is an `IndexError` (`none`). -/
def pyGet (xs : List ℚ) (i : Int) : Option ℚ :=
  let j : Int := if i < 0 then (xs.length : Int) + i else i
  if j < 0 then none else xs.get? j.toNat

/-- The nested `result_dict["kpoint_data"]` table produced by the scanner. -/
structure KpointData where
  kpoints : List (List ℚ)
  labels : List String
  bands : List (List ℚ)
  bands_unit : String
deriving DecidableEq

/-- The scanner's flat result dictionary restricted to the fields the assembly
layer reads or writes.  `none` models an absent key; the three sentinel
booleans model presence of the reserved sentinel keys (the code only ever
tests `"…" in result_dict` on them).  `others` stands for all remaining
key/value pairs, which the assembly layer passes through untouched. -/
structure ResultDict where
  geo_not_converged : Bool
  uks_needed : Bool
  aborted : Bool
  dft_type : Option String
  eigen_spin1_au : Option (List ℚ)
  eigen_spin2_au : Option (List ℚ)
  init_nel_spin1 : Option Int
  init_nel_spin2 : Option Int
  bandgap_spin1_au : Option ℚ
  bandgap_spin2_au : Option ℚ
  kpoint_data : Option KpointData
  energy : Option ℚ
  others : List (String × String)
deriving DecidableEq

/-- The empty result dictionary (no keys set). -/
def RD0 : ResultDict :=
  ⟨false, false, false, none, none, none, none, none, none, none, none, none, []⟩

/-- The external band-structure container (`BandsData = DataFactory('array.bands')`)
after the three setter calls `set_kpoints`, `labels`, `set_bands` made by
`Cp2kAdvancedParser._create_output_nodes`. -/
structure BandsData where
  kpoints : List (List ℚ)
  labels : List String
  bands : List (List ℚ)
  units : String
deriving DecidableEq

/-- Geometry produced by the external `parse_cp2k_trajectory` / `Atoms` /
`StructureData` pipeline; its internals are irrelevant to the assembly layer. -/
structure Geometry where
  symbols : List String
  positions : List (ℚ × ℚ × ℚ)
  cell : Option (List (ℚ × ℚ × ℚ))
deriving DecidableEq

/-- `result_dict` field lookup: a missing key raises `KeyError`. -/
def getKey {α : Type} (o : Option α) : Except PyErr α :=
  match o with
  | some a => Except.ok a
  | none => Except.error PyErr.keyError

/-- `Cp2kBaseParser.sections` (the empty list). -/
def baseSections : List String := []

/-- `Cp2kAdvancedParser.sections`. -/
def advancedSections : List String :=
  ["spin_density", "natoms", "scf_parameters", "init_nel", "kpoint_data", "motion_info"]

/-- Core of the band-gap block of `Cp2kAdvancedParser._create_output_nodes`
(lines 110–120): look up `init_nel_spin1`/`init_nel_spin2` and the (possibly
RKS-synthesized) spin-2 eigenvalue list — a missing key is a `KeyError`
(lines 110–113); clamp both LUMO indices to `len - 1` if either exceeds its
channel's last index (lines 112–116); index the eigenvalue lists
(lines 117–120) — out of range is an `IndexError`.  Returns the effective
spin-2 list and the two gaps.  All `KeyError` branches are collapsed into one
error value, as are all `IndexError` branches, matching the source, where they
are indistinguishable exception types. -/
def bandgapCompute (e1 : List ℚ) (oe2 : Option (List ℚ)) (on1 on2 : Option Int) :
    Except PyErr (List ℚ × ℚ × ℚ) :=
  match on1, on2, oe2 with
  | some n1, some n2, some e2 =>
    let idx : Int × Int :=
      if n1 > (e1.length : Int) - 1 ∨ n2 > (e2.length : Int) - 1 then
        ((e1.length : Int) - 1, (e2.length : Int) - 1)
      else (n1, n2)
    match pyGet e1 (idx.1 - 1), pyGet e2 (idx.2 - 1), pyGet e1 idx.1, pyGet e2 idx.2 with
    | some homo1, some homo2, some lumo1, some lumo2 =>
      Except.ok (e2, lumo1 - homo1, lumo2 - homo2)
    | _, _, _, _ => Except.error PyErr.indexError
  | _, _, _ => Except.error PyErr.keyError

/-- Lines 106–122 of `Cp2kAdvancedParser._create_output_nodes`: the band-gap
block.  Guarded by `'eigen_spin1_au' in result_dict` (line 106); looks up
`dft_type` (line 107), synthesizing `eigen_spin2_au` from spin 1 when it
equals `"RKS"` (line 108); then runs `bandgapCompute` and stores the
synthesized spin-2 list (line 108) and the two gaps (lines 121–122) into the
dictionary. -/
def bandgapSection (rd : ResultDict) : Except PyErr ResultDict :=
  match rd.eigen_spin1_au with
  | none => Except.ok rd
  | some e1 =>
    match rd.dft_type with
    | none => Except.error PyErr.keyError
    | some dt =>
      match bandgapCompute e1 (if dt = "RKS" then some e1 else rd.eigen_spin2_au)
          rd.init_nel_spin1 rd.init_nel_spin2 with
      | Except.ok (e2, g1, g2) =>
        Except.ok { rd with
          eigen_spin2_au := some e2,
          bandgap_spin1_au := some g1,
          bandgap_spin2_au := some g2 }
      | Except.error e => Except.error e

/-- Lines 124–134 of `Cp2kAdvancedParser._create_output_nodes`: if
`"kpoint_data" in result_dict`, build the `BandsData` from its fields, emit it,
and `del result_dict["kpoint_data"]`.  Returns the final `output_parameters`
dictionary together with the optional `output_bands` node. -/
def kpointSection (rd : ResultDict) : ResultDict × Option BandsData :=
  match rd.kpoint_data with
  | some kd =>
    ({ rd with kpoint_data := none },
     some { kpoints := kd.kpoints, labels := kd.labels, bands := kd.bands,
            units := kd.bands_unit })
  | none => (rd, none)

/-- `Cp2kAdvancedParser._create_output_nodes`: band-gap block, then k-point
block, then `self.out("output_parameters", …)`.  The returned pair is
(`output_parameters` dictionary, optional `output_bands` node); a Python
exception escaping the method is the `Except.error` case. -/
def createOutputNodesAdv (rd : ResultDict) : Except PyErr (ResultDict × Option BandsData) :=
  match bandgapSection rd with
  | Except.ok rd1 => Except.ok (kpointSection rd1)
  | Except.error e => Except.error e

/-- `Cp2kBaseParser._create_output_nodes`: emits the dictionary unchanged and
no bands node. -/
def createOutputNodesBase (rd : ResultDict) : Except PyErr (ResultDict × Option BandsData) :=
  Except.ok (rd, none)

/-- The retrieved folder: an association list of object name ↦ content, where
content `none` models a present-but-unreadable object (reading it raises
`IOError`). -/
abbrev Retrieved : Type := List (String × Option String)

/-- First entry for a name, if the object is present at all. -/
def findContent : Retrieved → String → Option (Option String)
  | [], _ => none
  | (k, v) :: t, n => if k = n then some v else findContent t n

/-- `self.retrieved.list_object_names()`. -/
def listObjectNames (r : Retrieved) : List String :=
  r.map Prod.fst

/-- `self.retrieved.get_object_content(fname)`: `none` models a raised
`IOError` (object missing or unreadable). -/
def getObjectContent (r : Retrieved) (n : String) : Option String :=
  (findContent r n).join

/-- The node attributes `Cp2kBaseParser` reads: `output_filename` and the
process class's `_DEFAULT_RESTART_FILE_NAME`. -/
structure ParserNode where
  output_filename : String
  restart_file_name : String

/-- `Cp2kBaseParser._parse_stdout` (lines 52–75): returns either the scanner's
result dictionary (`Sum.inl`) or an exit code (`Sum.inr`).  The external
scanner `parse_cp2k_output` is the parameter `scan`. -/
def parseStdout (scan : String → List String → ResultDict) (sections : List String)
    (node : ParserNode) (retrieved : Retrieved) : ResultDict ⊕ ExitCodeKind :=
  let fname := node.output_filename
  if fname ∈ listObjectNames retrieved then
    match getObjectContent retrieved fname with
    | none => Sum.inr ExitCodeKind.errorOutputStdoutRead
    | some output_string =>
      let result_dict := scan output_string sections
      if result_dict.geo_not_converged then
        Sum.inr ExitCodeKind.errorGeometryConvergenceNotReached
      else if result_dict.uks_needed then
        Sum.inr ExitCodeKind.errorUksNeeded
      else if result_dict.aborted then
        Sum.inr ExitCodeKind.errorOutputContainsAbort
      else Sum.inl result_dict
  else Sum.inr ExitCodeKind.errorOutputStdoutMissing

/-- Result of `Cp2kBaseParser._parse_trajectory`: a raised
`exceptions.NotExistent` (restart file absent), a returned exit code (restart
file unreadable), or a returned `StructureData`. -/
inductive TrajResult where
  | notExistent
  | exitCode (c : ExitCodeKind)
  | struct (g : Geometry)
deriving DecidableEq

/-- `Cp2kBaseParser._parse_trajectory` (lines 77–94).  The external
`parse_cp2k_trajectory` / `Atoms` / `StructureData` pipeline is the parameter
`extract`.  Note line 92 returns `ERROR_OUTPUT_STDOUT_READ` — the same exit
code `_parse_stdout` uses for an unreadable stdout file. -/
def parseTrajectory (extract : String → Geometry) (node : ParserNode)
    (retrieved : Retrieved) : TrajResult :=
  let fname := node.restart_file_name
  if fname ∈ listObjectNames retrieved then
    match getObjectContent retrieved fname with
    | none => TrajResult.exitCode ExitCodeKind.errorOutputStdoutRead
    | some output_string => TrajResult.struct (extract output_string)
  else TrajResult.notExistent

/-- The output nodes emitted through `self.out` during one `parse` call. -/
structure Outputs where
  output_parameters : Option ResultDict
  output_bands : Option BandsData
  output_structure : Option Geometry
deriving DecidableEq

/-- No `self.out` call made. -/
def noOutputs : Outputs := ⟨none, none, none⟩

/-- `Cp2kBaseParser.parse` (lines 26–50), parametric in the subclass's
`_create_output_nodes` (`createON`), the external scanner and geometry reader,
and the class's `sections`.  `retrieved = none` models a raised
`exceptions.NotExistent` on `self.retrieved`.  The value is the returned
`ExitCode` together with the output nodes emitted before returning; a Python
exception escaping `parse` is the `Except.error` case. -/
def parse (createON : ResultDict → Except PyErr (ResultDict × Option BandsData))
    (scan : String → List String → ResultDict) (sections : List String)
    (extract : String → Geometry) (node : ParserNode)
    (retrieved : Option Retrieved) : Except PyErr (ExitCodeKind × Outputs) :=
  match retrieved with
  | none => Except.ok (ExitCodeKind.errorNoRetrievedFolder, noOutputs)
  | some r =>
    match parseStdout scan sections node r with
    | Sum.inr code => Except.ok (code, noOutputs)
    | Sum.inl result_dict =>
      match createON result_dict with
      | Except.error e => Except.error e
      | Except.ok (rd2, obands) =>
        let outs : Outputs :=
          { output_parameters := some rd2, output_bands := obands, output_structure := none }
        match parseTrajectory extract node r with
        | TrajResult.struct g =>
          Except.ok (ExitCodeKind.success, { outs with output_structure := some g })
        | TrajResult.exitCode c => Except.ok (c, outs)
        | TrajResult.notExistent => Except.ok (ExitCodeKind.success, outs)

/-- The spec's outcome classification of a `_parse_stdout` result: the three
sentinel exit codes and the normal case; other exit codes are not run
outcomes. -/
inductive Outcome where
  | GEOMETRY_NOT_CONVERGED
  | SPIN_TREATMENT_REQUIRED
  | RUN_ABORTED
  | NORMAL
deriving DecidableEq

/-- Outcome classification of a `_parse_stdout` result. -/
def outcomeOf : ResultDict ⊕ ExitCodeKind → Option Outcome
  | Sum.inl _ => some Outcome.NORMAL
  | Sum.inr ExitCodeKind.errorGeometryConvergenceNotReached =>
      some Outcome.GEOMETRY_NOT_CONVERGED
  | Sum.inr ExitCodeKind.errorUksNeeded => some Outcome.SPIN_TREATMENT_REQUIRED
  | Sum.inr ExitCodeKind.errorOutputContainsAbort => some Outcome.RUN_ABORTED
  | Sum.inr _ => none

/-- The claim's clamped gap formula `eigen[idx] - eigen[idx - 1]` with Python
indexing, used to state the band-gap theorems. -/
def gapAt (e : List ℚ) (idx : Int) : Option ℚ :=
  match pyGet e idx, pyGet e (idx - 1) with
  | some lumo, some homo => some (lumo - homo)
  | _, _ => none

/-! ### Basic lemmas about the embedding -/

theorem mem_listObjectNames (r : Retrieved) (n : String) :
    n ∈ listObjectNames r ↔ (findContent r n).isSome := by
  induction r with
  | nil => simp [listObjectNames, findContent]
  | cons p t ih =>
    obtain ⟨k, v⟩ := p
    by_cases hk : k = n
    · subst hk
      simp [listObjectNames, findContent]
    · simp only [listObjectNames, List.map_cons, List.mem_cons, findContent, if_neg hk]
      rw [← listObjectNames, ih]
      have hk' : n ≠ k := fun hx => hk hx.symm
      simp [hk']

theorem parseStdout_congr (scan : String → List String → ResultDict)
    (sections : List String) (node : ParserNode) (r r' : Retrieved)
    (h : findContent r' node.output_filename = findContent r node.output_filename) :
    parseStdout scan sections node r' = parseStdout scan sections node r := by
  have hmem : (node.output_filename ∈ listObjectNames r') ↔
      (node.output_filename ∈ listObjectNames r) := by
    rw [mem_listObjectNames, mem_listObjectNames, h]
  have hcont : getObjectContent r' node.output_filename =
      getObjectContent r node.output_filename := by
    unfold getObjectContent
    rw [h]
  unfold parseStdout
  by_cases hm : node.output_filename ∈ listObjectNames r
  · rw [if_pos hm, if_pos (hmem.mpr hm), hcont]
  · rw [if_neg hm, if_neg (fun hx => hm (hmem.mp hx))]

/-- Under a present, readable output file, `_parse_stdout` is the sentinel
dispatch chain of lines 66–75 applied to the scanner's dictionary. -/
theorem parseStdout_eq (scan : String → List String → ResultDict)
    (sections : List String) (node : ParserNode) (r : Retrieved) (s : String)
    (rd : ResultDict)
    (hmem : node.output_filename ∈ listObjectNames r)
    (hcont : getObjectContent r node.output_filename = some s)
    (hscan : scan s sections = rd) :
    parseStdout scan sections node r =
      (if rd.geo_not_converged then Sum.inr ExitCodeKind.errorGeometryConvergenceNotReached
       else if rd.uks_needed then Sum.inr ExitCodeKind.errorUksNeeded
       else if rd.aborted then Sum.inr ExitCodeKind.errorOutputContainsAbort
       else Sum.inl rd) := by
  unfold parseStdout
  rw [if_pos hmem, hcont]
  dsimp only
  rw [hscan]

theorem pyGet_nonneg (e : List ℚ) (i : Int) (h0 : 0 ≤ i) (h1 : i < (e.length : Int)) :
    pyGet e i = some (e.get ⟨i.toNat, by omega⟩) := by
  simp only [pyGet]
  rw [if_neg (by omega : ¬ i < 0), if_neg (by omega : ¬ i < 0)]
  exact List.get?_eq_get (by omega)

theorem pyGet_neg_one (e : List ℚ) (h : e ≠ []) :
    pyGet e (-1) = some (e.getLast h) := by
  have hl : 0 < e.length := List.length_pos.mpr h
  simp only [pyGet]
  rw [if_pos (by omega : (-1 : Int) < 0),
      if_neg (by omega : ¬ (e.length : Int) + -1 < 0)]
  have ht : ((e.length : Int) + -1).toNat = e.length - 1 := by omega
  rw [ht, List.get?_eq_get (by omega), List.getLast_eq_getElem e h]
  simp [List.get_eq_getElem]

theorem pyGet_zero (e : List ℚ) (h : e ≠ []) :
    pyGet e 0 = some (e.head h) := by
  have hl : 0 < e.length := List.length_pos.mpr h
  rw [pyGet_nonneg e 0 (by omega) (by omega), List.head_eq_getElem e h]
  simp [List.get_eq_getElem]

theorem pyGet_isSome (e : List ℚ) (i : Int) (h : e ≠ []) (hlo : -1 ≤ i)
    (hhi : i ≤ (e.length : Int) - 1) : ∃ v, pyGet e i = some v := by
  have hl : 0 < e.length := List.length_pos.mpr h
  rcases lt_or_le i 0 with hi | hi
  · have hieq : i = -1 := by omega
    subst hieq
    exact ⟨e.getLast h, pyGet_neg_one e h⟩
  · exact ⟨_, pyGet_nonneg e i hi (by omega)⟩

/-- `bandgapSection` with present `eigen_spin1_au` and `dft_type` is
`bandgapCompute` plus the three dictionary updates. -/
theorem bandgapSection_eq (rd : ResultDict) (dt : String) (e1 : List ℚ)
    (hdt : rd.dft_type = some dt) (hE1 : rd.eigen_spin1_au = some e1) :
    bandgapSection rd =
      match bandgapCompute e1 (if dt = "RKS" then some e1 else rd.eigen_spin2_au)
          rd.init_nel_spin1 rd.init_nel_spin2 with
      | Except.ok (e2, g1, g2) =>
        Except.ok { rd with
          eigen_spin2_au := some e2,
          bandgap_spin1_au := some g1,
          bandgap_spin2_au := some g2 }
      | Except.error e => Except.error e := by
  unfold bandgapSection
  rw [hE1, hdt]

/-- `bandgapCompute` when the clamp condition of lines 112–114 holds: both
channels use their last valid index. -/
theorem bandgapCompute_clamp (e1 e2 : List ℚ) (n1 n2 : Int)
    (h1 : e1 ≠ []) (h2 : e2 ≠ [])
    (hclamp : n1 > (e1.length : Int) - 1 ∨ n2 > (e2.length : Int) - 1) :
    (bandgapCompute e1 (some e2) (some n1) (some n2)).map
        (fun p => (p.1, some p.2.1, some p.2.2)) =
      Except.ok (e2, gapAt e1 ((e1.length : Int) - 1),
        gapAt e2 ((e2.length : Int) - 1)) := by
  have hl1 : 0 < e1.length := List.length_pos.mpr h1
  have hl2 : 0 < e2.length := List.length_pos.mpr h2
  obtain ⟨ho1, hho1⟩ := pyGet_isSome e1 ((e1.length : Int) - 1 - 1) h1 (by omega) (by omega)
  obtain ⟨ho2, hho2⟩ := pyGet_isSome e2 ((e2.length : Int) - 1 - 1) h2 (by omega) (by omega)
  have hlu1 := pyGet_nonneg e1 ((e1.length : Int) - 1) (by omega) (by omega)
  have hlu2 := pyGet_nonneg e2 ((e2.length : Int) - 1) (by omega) (by omega)
  unfold bandgapCompute
  dsimp only
  rw [if_pos hclamp]
  dsimp only
  rw [hho1, hho2, hlu1, hlu2]
  unfold gapAt
  rw [hho1, hho2, hlu1, hlu2]
  rfl

/-- `bandgapCompute` when both indices are in range: no clamping. -/
theorem bandgapCompute_noclamp (e1 e2 : List ℚ) (n1 n2 : Int)
    (h1 : e1 ≠ []) (h2 : e2 ≠ [])
    (hn1 : 0 ≤ n1) (hn2 : 0 ≤ n2)
    (hc1 : n1 ≤ (e1.length : Int) - 1) (hc2 : n2 ≤ (e2.length : Int) - 1) :
    (bandgapCompute e1 (some e2) (some n1) (some n2)).map
        (fun p => (p.1, some p.2.1, some p.2.2)) =
      Except.ok (e2, gapAt e1 n1, gapAt e2 n2) := by
  have hl1 : 0 < e1.length := List.length_pos.mpr h1
  have hl2 : 0 < e2.length := List.length_pos.mpr h2
  obtain ⟨ho1, hho1⟩ := pyGet_isSome e1 (n1 - 1) h1 (by omega) (by omega)
  obtain ⟨ho2, hho2⟩ := pyGet_isSome e2 (n2 - 1) h2 (by omega) (by omega)
  have hlu1 := pyGet_nonneg e1 n1 (by omega) (by omega)
  have hlu2 := pyGet_nonneg e2 n2 (by omega) (by omega)
  unfold bandgapCompute
  dsimp only
  rw [if_neg (by omega : ¬(n1 > (e1.length : Int) - 1 ∨ n2 > (e2.length : Int) - 1))]
  dsimp only
  rw [hho1, hho2, hlu1, hlu2]
  unfold gapAt
  rw [hho1, hho2, hlu1, hlu2]
  rfl

/-- With identical channels and equal occupation counts, `bandgapCompute`
returns the first channel and two equal gaps (whether it clamps or not, both
channels use the same index). -/
theorem bandgapCompute_diag (e1 : List ℚ) (n : Int) (e2' : List ℚ) (g1 g2 : ℚ)
    (h : bandgapCompute e1 (some e1) (some n) (some n) = Except.ok (e2', g1, g2)) :
    e2' = e1 ∧ g1 = g2 := by
  unfold bandgapCompute at h
  dsimp only at h
  by_cases hc : n > (e1.length : Int) - 1 ∨ n > (e1.length : Int) - 1
  · rw [if_pos hc] at h
    dsimp only at h
    cases hp : pyGet e1 ((e1.length : Int) - 1 - 1) <;> rw [hp] at h
    · exact Except.noConfusion h
    · cases hq : pyGet e1 ((e1.length : Int) - 1) <;> rw [hq] at h <;> dsimp only at h
      · exact Except.noConfusion h
      · simp only [Except.ok.injEq, Prod.mk.injEq] at h
        obtain ⟨ha, hb, hcc⟩ := h
        exact ⟨ha.symm, hb.symm.trans hcc⟩
  · rw [if_neg hc] at h
    dsimp only at h
    cases hp : pyGet e1 (n - 1) <;> rw [hp] at h
    · exact Except.noConfusion h
    · cases hq : pyGet e1 n <;> rw [hq] at h <;> dsimp only at h
      · exact Except.noConfusion h
      · simp only [Except.ok.injEq, Prod.mk.injEq] at h
        obtain ⟨ha, hb, hcc⟩ := h
        exact ⟨ha.symm, hb.symm.trans hcc⟩

/-- A LUMO index of 0 makes the HOMO lookup wrap around to the last
eigenvalue. -/
theorem gapAt_zero (e : List ℚ) (h : e ≠ []) :
    gapAt e 0 = some (e.head h - e.getLast h) := by
  unfold gapAt
  rw [pyGet_zero e h, (by norm_num : (0 : Int) - 1 = -1), pyGet_neg_one e h]

/-- `bandgapSection` never adds, removes or changes the `kpoint_data` entry. -/
theorem bandgapSection_kpoint (rd rd1 : ResultDict)
    (h : bandgapSection rd = Except.ok rd1) :
    rd1.kpoint_data = rd.kpoint_data := by
  unfold bandgapSection at h
  repeat' split at h
  all_goals first
    | (injection h with h; subst h; rfl)
    | (cases h)

/-! ### Concrete fixtures used by witnesses and counterexamples -/

def node0 : ParserNode := ⟨"aiida.out", "aiida-1.restart"⟩

def extract0 : String → Geometry := fun _ => ⟨[], [], none⟩

def scan0 : String → List String → ResultDict := fun _ _ => RD0

def rStdOnly : Retrieved := [("aiida.out", some "log")]

def rEmpty : Retrieved := []

def rStdBad : Retrieved := [("aiida.out", none)]

def rTrajBad : Retrieved := [("aiida.out", some "log"), ("aiida-1.restart", none)]

def rWithTraj : Retrieved := [("aiida-1.restart", some "junk")]

def kd0 : KpointData := ⟨[[0, 0, 0]], ["GAMMA"], [[1, 2]], "eV"⟩

def rdAbort : ResultDict := { RD0 with aborted := true, kpoint_data := some kd0 }

def scanAbort : String → List String → ResultDict := fun _ _ => rdAbort

def rdAllSentinels : ResultDict :=
  { RD0 with geo_not_converged := true, uks_needed := true, aborted := true }

def scanAllSentinels : String → List String → ResultDict := fun _ _ => rdAllSentinels

/-! ### Claim theorems -/

/-- C1: Outcome precedence — under a present, readable output file whose scan
yields `rd`, the assembly layer reports GEOMETRY_NOT_CONVERGED whenever the
`geo_not_converged` sentinel is present (regardless of the other sentinels);
otherwise SPIN_TREATMENT_REQUIRED if `uks_needed` is present; otherwise
RUN_ABORTED if `aborted` is present; otherwise NORMAL, handing back the
dictionary.  `outcomeOf` is a function of the `_parse_stdout` result, so
exactly one outcome is reported even when several sentinels are set. -/
theorem outcome_precedence (scan : String → List String → ResultDict)
    (sections : List String) (node : ParserNode) (r : Retrieved) (s : String)
    (rd : ResultDict)
    (hmem : node.output_filename ∈ listObjectNames r)
    (hcont : getObjectContent r node.output_filename = some s)
    (hscan : scan s sections = rd) :
    (rd.geo_not_converged = true →
      parseStdout scan sections node r =
        Sum.inr ExitCodeKind.errorGeometryConvergenceNotReached ∧
      outcomeOf (parseStdout scan sections node r) =
        some Outcome.GEOMETRY_NOT_CONVERGED) ∧
    (rd.geo_not_converged = false → rd.uks_needed = true →
      parseStdout scan sections node r = Sum.inr ExitCodeKind.errorUksNeeded ∧
      outcomeOf (parseStdout scan sections node r) =
        some Outcome.SPIN_TREATMENT_REQUIRED) ∧
    (rd.geo_not_converged = false → rd.uks_needed = false → rd.aborted = true →
      parseStdout scan sections node r = Sum.inr ExitCodeKind.errorOutputContainsAbort ∧
      outcomeOf (parseStdout scan sections node r) = some Outcome.RUN_ABORTED) ∧
    (rd.geo_not_converged = false → rd.uks_needed = false → rd.aborted = false →
      parseStdout scan sections node r = Sum.inl rd ∧
      outcomeOf (parseStdout scan sections node r) = some Outcome.NORMAL) := by
  rw [parseStdout_eq scan sections node r s rd hmem hcont hscan]
  refine ⟨fun hg => ?_, fun hg hu => ?_, fun hg hu ha => ?_, fun hg hu ha => ?_⟩
  · simp [hg, outcomeOf]
  · simp [hg, hu, outcomeOf]
  · simp [hg, hu, ha, outcomeOf]
  · simp [hg, hu, ha, outcomeOf]

/-- C1 witness: with all three sentinels set simultaneously, the reported
outcome is GEOMETRY_NOT_CONVERGED; with none set, it is NORMAL. -/
theorem outcome_precedence_witness :
    (parseStdout scanAllSentinels advancedSections node0 rStdOnly =
       Sum.inr ExitCodeKind.errorGeometryConvergenceNotReached ∧
     outcomeOf (parseStdout scanAllSentinels advancedSections node0 rStdOnly) =
       some Outcome.GEOMETRY_NOT_CONVERGED) ∧
    (parseStdout scan0 advancedSections node0 rStdOnly = Sum.inl RD0 ∧
     outcomeOf (parseStdout scan0 advancedSections node0 rStdOnly) =
       some Outcome.NORMAL) :=
  ⟨(outcome_precedence scanAllSentinels advancedSections node0 rStdOnly "log"
      rdAllSentinels (by decide) rfl rfl).1 rfl,
   (outcome_precedence scan0 advancedSections node0 rStdOnly "log"
      RD0 (by decide) rfl rfl).2.2.2 rfl rfl rfl⟩

/-- C2 counterexample: a scan dictionary with the `aborted` sentinel set and
k-point data present; `parse` returns the abort exit code having emitted no
output nodes at all — no flat mapping is handed to the caller and no
BandTable is produced, refuting the claim that both happen regardless of
outcome. -/
theorem sentinel_still_outputs_cex :
    rdAbort.aborted = true ∧ rdAbort.kpoint_data.isSome = true ∧
    parse createOutputNodesAdv scanAbort advancedSections extract0 node0
        (some rStdOnly) =
      Except.ok (ExitCodeKind.errorOutputContainsAbort, noOutputs) ∧
    noOutputs.output_parameters = none ∧ noOutputs.output_bands = none :=
  ⟨rfl, rfl, rfl, rfl, rfl⟩

/-- C2 amended: when at least one status sentinel is set, the assembly layer
does not hand the caller the mapping and produces no BandTable: `parse`
returns the sentinel's exit code (first match in precedence order) with no
output nodes emitted at all. -/
theorem sentinel_no_outputs (scan : String → List String → ResultDict)
    (sections : List String) (extract : String → Geometry) (node : ParserNode)
    (r : Retrieved) (s : String) (rd : ResultDict)
    (hmem : node.output_filename ∈ listObjectNames r)
    (hcont : getObjectContent r node.output_filename = some s)
    (hscan : scan s sections = rd)
    (hsent : rd.geo_not_converged = true ∨ rd.uks_needed = true ∨ rd.aborted = true) :
    parse createOutputNodesAdv scan sections extract node (some r) =
      Except.ok
        (if rd.geo_not_converged then ExitCodeKind.errorGeometryConvergenceNotReached
         else if rd.uks_needed then ExitCodeKind.errorUksNeeded
         else ExitCodeKind.errorOutputContainsAbort, noOutputs) := by
  unfold parse
  dsimp only
  rw [parseStdout_eq scan sections node r s rd hmem hcont hscan]
  cases hg : rd.geo_not_converged <;> cases hu : rd.uks_needed <;>
    cases ha : rd.aborted <;> simp_all

/-- C2 amended witness: the `aborted` run with k-point data concretely yields
the abort exit code and no outputs. -/
theorem sentinel_no_outputs_witness :
    parse createOutputNodesAdv scanAbort advancedSections extract0 node0
        (some rStdOnly) =
      Except.ok (ExitCodeKind.errorOutputContainsAbort, noOutputs) :=
  sentinel_no_outputs scanAbort advancedSections extract0 node0 rStdOnly "log"
    rdAbort (by decide) rfl rfl (Or.inr (Or.inr rfl))

/-- C6: with a present, readable, sentinel-free output file but no restart
file, `_parse_trajectory` raises the distinct NOT-AVAILABLE signal
(`NotExistent`, not an exit code), `parse` swallows it, and the parse
completes successfully with `output_parameters` intact. -/
theorem trajectory_absence_nonfatal (scan : String → List String → ResultDict)
    (sections : List String) (extract : String → Geometry) (node : ParserNode)
    (r : Retrieved) (s : String) (rd : ResultDict)
    (hmem : node.output_filename ∈ listObjectNames r)
    (hcont : getObjectContent r node.output_filename = some s)
    (hscan : scan s sections = rd)
    (hg : rd.geo_not_converged = false) (hu : rd.uks_needed = false)
    (ha : rd.aborted = false)
    (htraj : node.restart_file_name ∉ listObjectNames r) :
    parseTrajectory extract node r = TrajResult.notExistent ∧
    (∀ c : ExitCodeKind, parseTrajectory extract node r ≠ TrajResult.exitCode c) ∧
    parse createOutputNodesBase scan sections extract node (some r) =
      Except.ok (ExitCodeKind.success,
        { output_parameters := some rd, output_bands := none,
          output_structure := none }) := by
  have htr : parseTrajectory extract node r = TrajResult.notExistent := by
    unfold parseTrajectory
    rw [if_neg htraj]
  refine ⟨htr, fun c hc => by rw [htr] at hc; exact TrajResult.noConfusion hc, ?_⟩
  unfold parse
  dsimp only
  rw [parseStdout_eq scan sections node r s rd hmem hcont hscan]
  simp only [hg, hu, ha, Bool.false_eq_true, if_false]
  dsimp only [createOutputNodesBase]
  rw [htr]

/-- C6 witness: a run with only the stdout file retrieved parses to success
with its parameters node, and the trajectory signal is `NotExistent`, not the
unreadable-file exit code. -/
theorem trajectory_absence_nonfatal_witness :
    parseTrajectory extract0 node0 rStdOnly = TrajResult.notExistent ∧
    parseTrajectory extract0 node0 rStdOnly ≠
      TrajResult.exitCode ExitCodeKind.errorOutputStdoutRead ∧
    parse createOutputNodesBase scan0 baseSections extract0 node0 (some rStdOnly) =
      Except.ok (ExitCodeKind.success,
        { output_parameters := some RD0, output_bands := none,
          output_structure := none }) := by
  have h := trajectory_absence_nonfatal scan0 baseSections extract0 node0 rStdOnly
      "log" RD0 (by decide) rfl rfl rfl rfl rfl (by decide)
  exact ⟨h.1, h.2.1 ExitCodeKind.errorOutputStdoutRead, h.2.2⟩

/-- C7 (code bug), evaluated concretely: output-file-missing gives
ERROR_OUTPUT_STDOUT_MISSING and trajectory-missing raises NotExistent, but
"output present, unreadable" and "trajectory present, unreadable" BOTH
surface exit code ERROR_OUTPUT_STDOUT_READ (line 92 reuses the stdout read
error for the restart file), so the four conditions' signals are not
pairwise distinguishable. -/
theorem unreadable_signals_collide :
    parseStdout scan0 baseSections node0 rEmpty =
      Sum.inr ExitCodeKind.errorOutputStdoutMissing ∧
    parseStdout scan0 baseSections node0 rStdBad =
      Sum.inr ExitCodeKind.errorOutputStdoutRead ∧
    parseTrajectory extract0 node0 rStdOnly = TrajResult.notExistent ∧
    parseTrajectory extract0 node0 rTrajBad =
      TrajResult.exitCode ExitCodeKind.errorOutputStdoutRead ∧
    parse createOutputNodesBase scan0 baseSections extract0 node0 (some rStdBad) =
      Except.ok (ExitCodeKind.errorOutputStdoutRead, noOutputs) ∧
    parse createOutputNodesBase scan0 baseSections extract0 node0 (some rTrajBad) =
      Except.ok (ExitCodeKind.errorOutputStdoutRead,
        { output_parameters := some RD0, output_bands := none,
          output_structure := none }) :=
  ⟨rfl, rfl, rfl, rfl, rfl, rfl⟩

/-- C9: whenever `_parse_stdout` does not return a dictionary (missing file,
unreadable file, or any sentinel set), `parse` returns that exit code with no
output nodes emitted, and its result does not depend on anything in the
retrieved folder other than the output-file entry — in particular the
trajectory file is never read. -/
theorem no_outputs_on_stdout_failure
    (createON : ResultDict → Except PyErr (ResultDict × Option BandsData))
    (scan : String → List String → ResultDict) (sections : List String)
    (extract : String → Geometry) (node : ParserNode) (r : Retrieved)
    (c : ExitCodeKind)
    (h : parseStdout scan sections node r = Sum.inr c) :
    parse createON scan sections extract node (some r) = Except.ok (c, noOutputs) ∧
    (∀ r' : Retrieved,
      findContent r' node.output_filename = findContent r node.output_filename →
      parse createON scan sections extract node (some r') =
        Except.ok (c, noOutputs)) := by
  have key : ∀ r' : Retrieved,
      findContent r' node.output_filename = findContent r node.output_filename →
      parse createON scan sections extract node (some r') =
        Except.ok (c, noOutputs) := by
    intro r' hr
    have h' : parseStdout scan sections node r' = Sum.inr c :=
      (parseStdout_congr scan sections node r r' hr).trans h
    unfold parse
    dsimp only
    rw [h']
  exact ⟨key r rfl, key⟩

/-- C9 witness: with the output file missing, `parse` returns
ERROR_OUTPUT_STDOUT_MISSING having emitted nothing; the result is unchanged
when a trajectory file is added to the folder, showing the trajectory is
never consulted. -/
theorem no_outputs_on_stdout_failure_witness :
    parse createOutputNodesBase scan0 baseSections extract0 node0 (some rEmpty) =
      Except.ok (ExitCodeKind.errorOutputStdoutMissing, noOutputs) ∧
    parse createOutputNodesBase scan0 baseSections extract0 node0 (some rWithTraj) =
      Except.ok (ExitCodeKind.errorOutputStdoutMissing, noOutputs) := by
  have h := no_outputs_on_stdout_failure createOutputNodesBase scan0 baseSections
      extract0 node0 rEmpty ExitCodeKind.errorOutputStdoutMissing rfl
  exact ⟨h.1, h.2 rWithTraj rfl⟩

def eSpec : List ℚ := [-1, -1/2, 1/5, 4/5]

def rdClamp : ResultDict :=
  { RD0 with dft_type := some "UKS", eigen_spin1_au := some eSpec,
             eigen_spin2_au := some eSpec,
             init_nel_spin1 := some 4, init_nel_spin2 := some 2 }

/-- C3: Band-gap clamp rule — if the LUMO index derived from `init_nel` falls
past the last valid index of either channel's eigenvalue list, both channels'
indices are set to their respective last valid index `len - 1` before
computing `gap = eigen[idx] - eigen[idx - 1]`, and no error is raised. -/
theorem bandgap_clamp (rd : ResultDict) (dt : String) (e1 e2 : List ℚ)
    (n1 n2 : Int)
    (hdt : rd.dft_type = some dt)
    (hE1 : rd.eigen_spin1_au = some e1) (h1 : e1 ≠ [])
    (hE2 : (if dt = "RKS" then some e1 else rd.eigen_spin2_au) = some e2)
    (h2 : e2 ≠ [])
    (hn1 : rd.init_nel_spin1 = some n1) (hn2 : rd.init_nel_spin2 = some n2)
    (hclamp : n1 > (e1.length : Int) - 1 ∨ n2 > (e2.length : Int) - 1) :
    (bandgapSection rd).map (fun r1 => (r1.bandgap_spin1_au, r1.bandgap_spin2_au)) =
      Except.ok (gapAt e1 ((e1.length : Int) - 1),
        gapAt e2 ((e2.length : Int) - 1)) := by
  rw [bandgapSection_eq rd dt e1 hdt hE1, hE2, hn1, hn2]
  have h := bandgapCompute_clamp e1 e2 n1 n2 h1 h2 hclamp
  cases hbc : bandgapCompute e1 (some e2) (some n1) (some n2) with
  | error e => rw [hbc] at h; exact Except.noConfusion h
  | ok p =>
    obtain ⟨e2', g1, g2⟩ := p
    rw [hbc] at h
    dsimp only [Except.map] at h ⊢
    simp only [Except.ok.injEq, Prod.mk.injEq] at h
    obtain ⟨he, hg1, hg2⟩ := h
    rw [← hg1, ← hg2]

/-- C3 witness: the spec's instance `init_nel_spin1 = 4 = len(eigen_spin1_au)`
is out of bounds, so both channels clamp to index `len - 1 = 3` and the gap is
`eigen[3] - eigen[2] = 4/5 - 1/5 = 3/5`, not a raised error. -/
theorem bandgap_clamp_witness :
    (bandgapSection rdClamp).map
        (fun r1 => (r1.bandgap_spin1_au, r1.bandgap_spin2_au)) =
      Except.ok (gapAt eSpec ((eSpec.length : Int) - 1),
        gapAt eSpec ((eSpec.length : Int) - 1)) ∧
    gapAt eSpec ((eSpec.length : Int) - 1) = some (4/5 - 1/5) ∧
    (4/5 - 1/5 : ℚ) = 3/5 :=
  ⟨bandgap_clamp rdClamp "UKS" eSpec eSpec 4 2 rfl rfl (by decide) rfl (by decide)
      rfl rfl (by decide),
   rfl, by norm_num⟩

def eC4 : List ℚ := [0, 1, 3]

def rdC4 : ResultDict :=
  { RD0 with dft_type := some "RKS", eigen_spin1_au := some eC4,
             init_nel_spin1 := some 1, init_nel_spin2 := some 2 }

/-- C4 counterexample: an RKS dictionary whose two occupation counts differ
(`init_nel_spin1 = 1`, `init_nel_spin2 = 2`): the synthesized second channel
is identical to the first, yet the two gaps are `1 - 0 = 1` and `3 - 1 = 2` —
not equal, refuting the claim's "so both channels' gaps are equal". -/
theorem rks_unequal_gaps_cex :
    rdC4.dft_type = some "RKS" ∧
    (bandgapSection rdC4).map
        (fun r1 => (r1.bandgap_spin1_au, r1.bandgap_spin2_au)) =
      Except.ok (some ((1 : ℚ) - 0), some ((3 : ℚ) - 1)) ∧
    ((1 : ℚ) - 0) ≠ ((3 : ℚ) - 1) :=
  ⟨rfl, rfl, by norm_num⟩

/-- C4 amended: for RKS dictionaries the assembly layer synthesizes a second
spin channel identical to the first before the gap computation, and whenever
the two occupation counts agree (as in the claim's concrete example) the two
gaps are equal. -/
theorem rks_bandgap (rd : ResultDict) (e1 : List ℚ) (n : Int) (rd1 : ResultDict)
    (hdt : rd.dft_type = some "RKS")
    (hE1 : rd.eigen_spin1_au = some e1)
    (hn1 : rd.init_nel_spin1 = some n) (hn2 : rd.init_nel_spin2 = some n)
    (hok : bandgapSection rd = Except.ok rd1) :
    rd1.eigen_spin2_au = some e1 ∧ rd1.bandgap_spin1_au = rd1.bandgap_spin2_au := by
  rw [bandgapSection_eq rd "RKS" e1 hdt hE1, if_pos rfl, hn1, hn2] at hok
  cases hbc : bandgapCompute e1 (some e1) (some n) (some n) with
  | error e => rw [hbc] at hok; exact Except.noConfusion hok
  | ok p =>
    obtain ⟨e2', g1, g2⟩ := p
    rw [hbc] at hok
    dsimp only at hok
    obtain ⟨he, hg⟩ := bandgapCompute_diag e1 n e2' g1 g2 hbc
    subst he
    injection hok with hok
    subst hok
    exact ⟨rfl, by rw [hg]⟩

def rdRKS : ResultDict :=
  { RD0 with dft_type := some "RKS", eigen_spin1_au := some eSpec,
             init_nel_spin1 := some 2, init_nel_spin2 := some 2 }

def rdRKSout : ResultDict :=
  { rdRKS with eigen_spin2_au := some eSpec,
               bandgap_spin1_au := some (1/5 - -1/2),
               bandgap_spin2_au := some (1/5 - -1/2) }

/-- C4 witness: the claim's concrete example — RKS,
`eigen_spin1_au = [-1, -1/2, 1/5, 4/5]`, `init_nel = 2` for both channels —
synthesizes an identical second channel and yields
`bandgap_spin1_au = bandgap_spin2_au = 7/10`. -/
theorem rks_bandgap_witness :
    rdRKSout.eigen_spin2_au = some eSpec ∧
    rdRKSout.bandgap_spin1_au = rdRKSout.bandgap_spin2_au ∧
    rdRKSout.bandgap_spin1_au = some (7/10) ∧
    bandgapSection rdRKS = Except.ok rdRKSout :=
  let h := rks_bandgap rdRKS eSpec 2 rdRKSout rfl rfl rfl rfl rfl
  ⟨h.1, h.2, congrArg some (by norm_num), rfl⟩

/-- C5: K-point promotion — whenever `kpoint_data` is present and
`_create_output_nodes` completes, the emitted `output_parameters` dictionary
no longer contains the `kpoint_data` key and the emitted BandTable's
kpoints, labels, bands and unit equal the extracted table's fields. -/
theorem kpoint_promotion (rd rd1 : ResultDict) (ob : Option BandsData)
    (kd : KpointData)
    (hk : rd.kpoint_data = some kd)
    (h : createOutputNodesAdv rd = Except.ok (rd1, ob)) :
    rd1.kpoint_data = none ∧
    ob = some { kpoints := kd.kpoints, labels := kd.labels, bands := kd.bands,
                units := kd.bands_unit } := by
  unfold createOutputNodesAdv at h
  cases hbg : bandgapSection rd with
  | error e => rw [hbg] at h; exact Except.noConfusion h
  | ok rdm =>
    rw [hbg] at h
    dsimp only at h
    injection h with h
    have hkp : rdm.kpoint_data = some kd := (bandgapSection_kpoint rd rdm hbg).trans hk
    unfold kpointSection at h
    rw [hkp] at h
    dsimp only at h
    injection h with h1 h2
    subst h1
    subst h2
    exact ⟨rfl, rfl⟩

def rdKp : ResultDict := { RD0 with kpoint_data := some kd0 }

/-- C5 witness: a dictionary holding only k-point data is handed back without
the `kpoint_data` key, and the produced BandTable carries exactly the
extracted kpoints, labels, bands and unit. -/
theorem kpoint_promotion_witness :
    RD0.kpoint_data = none ∧
    (some (⟨[[0, 0, 0]], ["GAMMA"], [[1, 2]], "eV"⟩ : BandsData) : Option BandsData) =
      some { kpoints := kd0.kpoints, labels := kd0.labels, bands := kd0.bands,
             units := kd0.bands_unit } :=
  kpoint_promotion rdKp RD0 (some ⟨[[0, 0, 0]], ["GAMMA"], [[1, 2]], "eV"⟩) kd0 rfl rfl

/-- C10: totality of the band-gap computation — with non-empty eigenvalue
lists and non-negative occupation counts the computation never raises an
index error, and a LUMO index of 0 (with the other channel in range) makes
the HOMO lookup wrap around to the LAST eigenvalue:
`gap = eigen[0] - eigen[len - 1]`. -/
theorem bandgap_totality (rd : ResultDict) (dt : String) (e1 e2 : List ℚ)
    (n1 n2 : Int)
    (hdt : rd.dft_type = some dt)
    (hE1 : rd.eigen_spin1_au = some e1) (h1 : e1 ≠ [])
    (hE2 : (if dt = "RKS" then some e1 else rd.eigen_spin2_au) = some e2)
    (h2 : e2 ≠ [])
    (hn1 : rd.init_nel_spin1 = some n1) (hn2 : rd.init_nel_spin2 = some n2)
    (hp1 : 0 ≤ n1) (hp2 : 0 ≤ n2) :
    (bandgapSection rd).toOption.isSome = true ∧
    (n1 = 0 → n2 ≤ (e2.length : Int) - 1 →
      (bandgapSection rd).map (fun r1 => r1.bandgap_spin1_au) =
        Except.ok (some (e1.head h1 - e1.getLast h1))) := by
  rw [bandgapSection_eq rd dt e1 hdt hE1, hE2, hn1, hn2]
  constructor
  · by_cases hc : n1 > (e1.length : Int) - 1 ∨ n2 > (e2.length : Int) - 1
    · have h := bandgapCompute_clamp e1 e2 n1 n2 h1 h2 hc
      cases hbc : bandgapCompute e1 (some e2) (some n1) (some n2) with
      | error e => rw [hbc] at h; exact Except.noConfusion h
      | ok p =>
        obtain ⟨e2', g1, g2⟩ := p
        rfl
    · have h := bandgapCompute_noclamp e1 e2 n1 n2 h1 h2 hp1 hp2 (by omega) (by omega)
      cases hbc : bandgapCompute e1 (some e2) (some n1) (some n2) with
      | error e => rw [hbc] at h; exact Except.noConfusion h
      | ok p =>
        obtain ⟨e2', g1, g2⟩ := p
        rfl
  · intro hz hn2le
    subst hz
    have hlen1 : 0 < e1.length := List.length_pos.mpr h1
    have h := bandgapCompute_noclamp e1 e2 0 n2 h1 h2 le_rfl hp2 (by omega) hn2le
    rw [gapAt_zero e1 h1] at h
    cases hbc : bandgapCompute e1 (some e2) (some 0) (some n2) with
    | error e => rw [hbc] at h; exact Except.noConfusion h
    | ok p =>
      obtain ⟨e2', g1, g2⟩ := p
      rw [hbc] at h
      dsimp only [Except.map] at h ⊢
      injection h with h
      injection h with he h
      injection h with hg1 hg2
      rw [hg1]

def eC10 : List ℚ := [2, 5]

def rdC10 : ResultDict :=
  { RD0 with dft_type := some "UKS", eigen_spin1_au := some eC10,
             eigen_spin2_au := some eC10,
             init_nel_spin1 := some 0, init_nel_spin2 := some 1 }

/-- C10 witness: with `init_nel_spin1 = 0` the HOMO lookup wraps around and
the computation silently yields `gap = eigen[0] - eigen[len - 1] = 2 - 5 = -3`
instead of failing. -/
theorem bandgap_totality_witness :
    (bandgapSection rdC10).toOption.isSome = true ∧
    (bandgapSection rdC10).map (fun r1 => r1.bandgap_spin1_au) =
      Except.ok (some ((2 : ℚ) - 5)) ∧
    ((2 : ℚ) - 5) = -3 :=
  let h := bandgap_totality rdC10 "UKS" eC10 eC10 0 1 rfl rfl (by decide) rfl
    (by decide) rfl rfl (by decide) (by decide)
  ⟨h.1, h.2 rfl (by decide), by norm_num⟩

/-! ### The Output Scanner's scalar rule (modelled from the spec)

`parse_cp2k_output` lives in `aiida_cp2k/utils/parser.py`, which is not among
the sources here; only its caller `_parse_stdout` is.  The scalar-extraction
rule needed by the last-occurrence claim is therefore modelled from the
spec's words. -/

/-- Modelled from the spec: line/marker matching inside the missing
`parse_cp2k_output` ("locate a … line matching a fixed textual marker").
Returns the rest of the line after the marker prefix, if the line matches. -/
def stripMarker : List Char → List Char → Option (List Char)
  | line, [] => some line
  | [], _ :: _ => none
  | c :: cs, m :: ms => if c = m then stripMarker cs ms else none

/-- Modelled from the spec: whitespace tokenization of the matched line's
remainder in the missing `parse_cp2k_output` (accumulator holds the current
token reversed). -/
def splitTok : List Char → List Char → List (List Char)
  | [], acc => if acc = [] then [] else [acc.reverse]
  | c :: cs, acc =>
    if c = ' ' then
      if acc = [] then splitTok cs [] else acc.reverse :: splitTok cs []
    else splitTok cs (c :: acc)

/-- Modelled from the spec: decimal digit of the numeric-token grammar in the
missing `parse_cp2k_output`. -/
def digitVal (c : Char) : Option Nat :=
  if c = '0' then some 0
  else if c = '1' then some 1
  else if c = '2' then some 2
  else if c = '3' then some 3
  else if c = '4' then some 4
  else if c = '5' then some 5
  else if c = '6' then some 6
  else if c = '7' then some 7
  else if c = '8' then some 8
  else if c = '9' then some 9
  else none

/-- Modelled from the spec: digit-string value (auxiliary accumulator). -/
def digitsValAux : List Char → Nat → Option Nat
  | [], acc => some acc
  | c :: cs, acc =>
    match digitVal c with
    | some d => digitsValAux cs (acc * 10 + d)
    | none => none

/-- Modelled from the spec: value of a non-empty digit string. -/
def digitsVal (cs : List Char) : Option Nat :=
  if cs = [] then none else digitsValAux cs 0

/-- Modelled from the spec: the "trailing numeric token" grammar of the
missing `parse_cp2k_output`, here for plain decimal tokens
(`digits` or `digits.digits`). -/
def parseUnsignedDec (cs : List Char) : Option ℚ :=
  match cs.splitOn '.' with
  | [w] => (digitsVal w).map (fun n => (n : ℚ))
  | [w, f] =>
    match digitsVal w, digitsVal f with
    | some wn, some fn => some ((wn : ℚ) + (fn : ℚ) / (10 : ℚ) ^ f.length)
    | _, _ => none
  | _ => none

/-- Modelled from the spec: a possibly negated decimal token. -/
def parseDecimal : List Char → Option ℚ
  | '-' :: cs => (parseUnsignedDec cs).map (fun q => -q)
  | cs => parseUnsignedDec cs

/-- Modelled from the spec: the value a single log line contributes to a
scalar section — the parsed trailing numeric token of a marker-matching
line. -/
def scalarFromLine (marker line : List Char) : Option ℚ :=
  match stripMarker line marker with
  | some rest =>
    match (splitTok rest []).getLast? with
    | some tok => parseDecimal tok
    | none => none
  | none => none

/-- Modelled from the spec: scalar extraction of the missing
`parse_cp2k_output` — "last occurrence wins if the marker recurs". -/
def scanScalar (marker : List Char) (log : List (List Char)) : Option ℚ :=
  (log.filterMap (scalarFromLine marker)).getLast?

/-- Modelled from the spec: the fixed textual marker of the labeled
"ENERGY|" line. -/
def energyMarker : List Char := " ENERGY|".toList

/-- Modelled from the spec: the scanner's output dictionary restricted to the
energy scalar section. -/
def scanModelEnergy (log : List (List Char)) : ResultDict :=
  { RD0 with energy := scanScalar energyMarker log }

/-- C8: scalar last-occurrence-wins — appending a marker-matching line whose
trailing token parses ends the scan with that line's value, whatever the
earlier lines (including earlier occurrences of the marker) contained; in
particular for the energy field. -/
theorem scalar_last_occurrence_wins (marker : List Char) (lg : List (List Char))
    (line rest tok : List Char)
    (hm : stripMarker line marker = some rest)
    (ht : (splitTok rest []).getLast? = some tok)
    (hv : (parseDecimal tok).isSome = true) :
    scanScalar marker (lg ++ [line]) = parseDecimal tok ∧
    (marker = energyMarker →
      (scanModelEnergy (lg ++ [line])).energy = parseDecimal tok) := by
  obtain ⟨v, hvv⟩ := Option.isSome_iff_exists.mp hv
  have hline : scalarFromLine marker line = some v := by
    unfold scalarFromLine
    rw [hm]
    dsimp only
    rw [ht]
    dsimp only
    exact hvv
  have hmain : scanScalar marker (lg ++ [line]) = parseDecimal tok := by
    unfold scanScalar
    rw [List.filterMap_append]
    have h2 : List.filterMap (scalarFromLine marker) [line] = [v] := by
      simp [List.filterMap, hline]
    rw [h2, List.getLast?_concat, hvv]
  refine ⟨hmain, fun hmk => ?_⟩
  subst hmk
  unfold scanModelEnergy
  exact hmain

def lineEnergy10 : List Char := " ENERGY| total energy 10".toList

def lineJunk : List Char := "junk line".toList

def lineEnergyNeg : List Char := " ENERGY| total energy -5.5".toList

def restNeg : List Char := " total energy -5.5".toList

def tokNeg : List Char := "-5.5".toList

/-- C8 witness: the spec's concrete instance — a log where an energy-marker
line appears first with trailing token 10 and later with trailing token -5.5
scans to energy = -5.5 (= -11/2), the value of the last occurrence, not the
first. -/
theorem scalar_last_occurrence_wins_witness :
    (scanModelEnergy ([lineEnergy10, lineJunk] ++ [lineEnergyNeg])).energy =
      parseDecimal tokNeg ∧
    parseDecimal tokNeg =
      some (-(((5 : Nat) : ℚ) + ((5 : Nat) : ℚ) / (10 : ℚ) ^ 1)) ∧
    (-(((5 : Nat) : ℚ) + ((5 : Nat) : ℚ) / (10 : ℚ) ^ 1)) = -(11 / 2 : ℚ) ∧
    scalarFromLine energyMarker lineEnergy10 = some ((10 : Nat) : ℚ) ∧
    ((10 : Nat) : ℚ) = 10 :=
  ⟨(scalar_last_occurrence_wins energyMarker [lineEnergy10, lineJunk]
      lineEnergyNeg restNeg tokNeg (by decide) (by decide) (by decide)).2 rfl,
   rfl, by norm_num, rfl, by norm_num⟩

end AiidaCp2k
